import Mathlib

/-!
Shallow embedding of the purchase-orchestration core found in
`src/resources/purchase/processor.ts` (class `PurchaseProcessor`).

The three database tables touched by the processor (`Purchases`, `Tickets`,
`Customers`) are modelled as in-memory lists inside a `Store`; the knex
queries the processor issues (`where id in …`, `where {id} first`, `update`,
`delete`) become the corresponding pure list operations.  Environment
variables read by `postPreference` become fields of an `Env` value, and the
MercadoPago client is a parameter mapping the preference configuration built
by the code to either a response or an error.
-/

namespace Checkout

/-- Item status stored in the `Tickets` table: `"available"` or `"booked"`. -/
inductive TicketStatus where
  | available
  | booked
deriving DecidableEq, Repr

/-- Order status stored in the `Purchases` table: `"unpaid"` or `"paid"`. -/
inductive PurchaseStatus where
  | unpaid
  | paid
deriving DecidableEq, Repr

/-- Failure outcomes observable from the processor.  `NotFound`, `Conflict`,
`GatewayError` and `AccessDenied` are the JsonApi error kinds named by the
design; `TypeError` models a raw JavaScript runtime `TypeError` (reading a
property of `undefined`), which is not part of the JsonApi taxonomy. -/
inductive Err where
  | NotFound
  | Conflict
  | GatewayError
  | AccessDenied
  | TypeError
deriving DecidableEq, Repr

/-- A row of the `Tickets` table.  `price` is the numeric value
`Number(record.price)`; `purchaseId` is `null` until booked. -/
structure Ticket where
  id : String
  price : Int
  ticketTypeId : Nat
  status : TicketStatus
  purchaseId : Option String
deriving DecidableEq, Repr

/-- A row of the `Purchases` table, with the attributes written by `add`:
`dateCreated` (a JSON date string), `status`, `amountBilled`, `externalId`. -/
structure Purchase where
  id : String
  dateCreated : String
  status : PurchaseStatus
  amountBilled : Int
  externalId : String
deriving DecidableEq, Repr

/-- The attribute object produced by `asResource` (the row minus its id). -/
structure PurchaseAttributes where
  dateCreated : String
  status : PurchaseStatus
  amountBilled : Int
  externalId : String
deriving DecidableEq, Repr

/-- The resource shape returned by `asResource`: id, fixed type `"purchase"`,
attributes, and an empty relationships object. -/
structure PurchaseResource where
  id : String
  type : String
  attributes : PurchaseAttributes
deriving DecidableEq, Repr

/-- The database state visible to the processor: the `Purchases` and
`Tickets` tables (the `Customers` table is only read by `getPayerData`,
which no verified claim touches). -/
structure Store where
  purchases : List Purchase
  tickets : List Ticket
deriving DecidableEq, Repr

/-- The environment variables read inside `postPreference`. -/
structure Env where
  WEBCONF_CHECKOUT_URL : String
  MP_BACK_URL_SUCCESS : String
  MP_BACK_URL_PENDING : String
  MP_BACK_URL_FAILURE : String
  USE_FAKE_PAYMENTS : Bool
  MP_TICKET_PICTURE_URL : String
  MP_EXCLUDED_PAYMENT_TYPES : String
deriving DecidableEq, Repr

/-- The part of the MercadoPago response the processor uses: `response.id`. -/
structure MPPreference where
  id : String
deriving DecidableEq, Repr

/-- One entry of the `items` array of the preference configuration.
`quantity` is `Option Nat` because the JavaScript lookup
`quantitiesByType[ticket.ticketTypeId]` can yield `undefined`. -/
structure LineItem where
  id : String
  title : String
  quantity : Option Nat
  currency_id : String
  unit_price : Int
  picture_url : String
  category_id : String
deriving DecidableEq, Repr

/-- The preference configuration object built by `postPreference`.  Each
entry of `excluded_payment_types` stands for one `{ id: paymentType }`
filter object. -/
structure PreferenceConfiguration where
  items : List LineItem
  excluded_payment_types : List String
  back_urls_success : String
  back_urls_failure : String
  back_urls_pending : String
  auto_return : String
  external_reference : String
  expires : Bool
  expiration_date_from : String
  expiration_date_to : String
deriving DecidableEq, Repr

/-- Lookup in a single-assignment object viewed as an association list,
mirroring the JavaScript read `accumulator[type]` / `quantitiesByType[t]`
(absent key gives `undefined`, here `none`). -/
def alistLookup (m : List (Nat × Nat)) (k : Nat) : Option Nat :=
  (m.find? (fun e => e.fst = k)).map (fun e => e.snd)

/-- One step of the reducer
`(accumulator, type) => ({ [type]: (accumulator[type] || 0) + 1 })`.
Note that the JavaScript object literal contains only the single key
`type`: the previous accumulator is not spread into it, so every step
returns a one-entry object. -/
def quantitiesStep (accumulator : List (Nat × Nat)) (type : Nat) : List (Nat × Nat) :=
  [(type, (alistLookup accumulator type).getD 0 + 1)]

/-- `ticketRecords.map(r => r.ticketTypeId).reduce(quantitiesStep, {})`. -/
def quantitiesByType (types : List Nat) : List (Nat × Nat) :=
  types.foldl quantitiesStep []

/-- The record returned by `getTickets`. -/
structure TicketsAggregate where
  totalPrice : Int
  tickets : List Ticket
  quantitiesByType : List (Nat × Nat)
deriving Repr

/-- `getTickets`: select the rows of `Tickets` whose id is among the
requested relationship ids, sum their prices with
`reduce((sum, price) => sum + price, 0)`, and build the quantities object.
No existence check and no check of the rows' `status` is performed. -/
def getTickets (ids : List String) (store : Store) : TicketsAggregate :=
  let ticketRecords := store.tickets.filter (fun t => ids.contains t.id)
  { totalPrice := (ticketRecords.map (fun r => r.price)).foldl (fun s p => s + p) 0
    tickets := ticketRecords
    quantitiesByType := quantitiesByType (ticketRecords.map (fun r => r.ticketTypeId)) }

/-- Left-pad the decimal representation of `n` with zeros to width `w`. -/
def pad (w : Nat) (n : Nat) : String :=
  let s := toString n
  String.mk (List.replicate (w - s.length) '0') ++ s

/-- Gregorian calendar date for a day count since 1970-01-01 (civil-from-days
conversion), as used by JavaScript `Date` serialization. -/
def civilFromDays (z0 : Nat) : Nat × Nat × Nat :=
  let z := z0 + 719468
  let era := z / 146097
  let doe := z % 146097
  let yoe := (doe - doe / 1460 + doe / 36524 - doe / 146096) / 365
  let y := yoe + era * 400
  let doy := doe - (365 * yoe + yoe / 4 - yoe / 100)
  let mp := (5 * doy + 2) / 153
  let d := doy - (153 * mp + 2) / 5 + 1
  let m := if mp < 10 then mp + 3 else mp - 9
  (if m ≤ 2 then y + 1 else y, m, d)

/-- `new Date(ms).toJSON()`: the 24-character ISO-8601 UTC string
`YYYY-MM-DDTHH:MM:SS.mmmZ` for a millisecond epoch timestamp. -/
def dateToJSON (ms : Nat) : String :=
  let msPart := ms % 1000
  let totalSecs := ms / 1000
  let s := totalSecs % 60
  let mi := totalSecs / 60 % 60
  let h := totalSecs / 3600 % 24
  let days := totalSecs / 86400
  let ymd := civilFromDays days
  pad 4 ymd.1 ++ "-" ++ pad 2 ymd.2.1 ++ "-" ++ pad 2 ymd.2.2 ++ "T" ++
    pad 2 h ++ ":" ++ pad 2 mi ++ ":" ++ pad 2 s ++ "." ++ pad 3 msPart ++ "Z"

/-- `const TOMORROW = Date.now() + 60 * 60 * 60 * 24 * 1000;` copied verbatim
from the source, factors included. -/
def tomorrowMs (now : Nat) : Nat :=
  now + 60 * 60 * 60 * 24 * 1000

/-- `new Date(ms).toJSON().substr(0, 23).concat("-03:00")`: keep the first 23
characters of the ISO string (dropping the trailing `Z`, keeping the three
fractional-second digits) and append the fixed offset suffix. -/
def expirationSerial (ms : Nat) : String :=
  String.mk ((dateToJSON ms).toList.take 23) ++ "-03:00"

/-- The inline lookup table
`const titles = { 1: "Entrada", 2: "Par de Entradas", 3: "Trío de Entradas" }`.
An absent key yields `undefined`, here `none`. -/
def titles : Nat → Option String
  | 1 => some "Entrada"
  | 2 => some "Par de Entradas"
  | 3 => some "Trío de Entradas"
  | _ => none

/-- JavaScript template-string rendering of a possibly-undefined number. -/
def numText : Option Nat → String
  | some n => toString n
  | none => "undefined"

/-- JavaScript template-string rendering of a possibly-undefined string. -/
def strText : Option String → String
  | some s => s
  | none => "undefined"

/-- The element of the `items` array built for one ticket: the quantity is
looked up in the quantities object by the ticket's type, and the title is
looked up in `titles` by that quantity (not by the ticket's type). -/
def lineItemOf (env : Env) (quantities : List (Nat × Nat)) (ticket : Ticket) : LineItem :=
  let quantity := alistLookup quantities ticket.ticketTypeId
  { id := "WEBCONF-TICKET-" ++ numText quantity
    title := strText (quantity.bind titles) ++ " para Córdoba WebConf 2019"
    quantity := quantity
    currency_id := "ARS"
    unit_price := if env.USE_FAKE_PAYMENTS then 2 else ticket.price
    picture_url := env.MP_TICKET_PICTURE_URL
    category_id := "tickets" }

/-- The `preferenceConfiguration` object literal of `postPreference`:
one `items` entry per ticket, the excluded payment types split on commas,
the three back urls joined with `/`, the external reference joined with
`|`, and the expiration window from `now` to `TOMORROW`. -/
def preferenceConfiguration (env : Env) (now : Nat) (tickets : List Ticket)
    (quantities : List (Nat × Nat)) : PreferenceConfiguration :=
  { items := tickets.map (lineItemOf env quantities)
    excluded_payment_types := env.MP_EXCLUDED_PAYMENT_TYPES.splitOn ","
    back_urls_success := env.WEBCONF_CHECKOUT_URL ++ "/" ++ env.MP_BACK_URL_SUCCESS
    back_urls_failure := env.WEBCONF_CHECKOUT_URL ++ "/" ++ env.MP_BACK_URL_FAILURE
    back_urls_pending := env.WEBCONF_CHECKOUT_URL ++ "/" ++ env.MP_BACK_URL_PENDING
    auto_return := "approved"
    external_reference := String.intercalate "|" (tickets.map (fun t => t.id))
    expires := true
    expiration_date_from := expirationSerial now
    expiration_date_to := expirationSerial (tomorrowMs now) }

/-- `postPreference`: build the configuration and submit it to the
MercadoPago client `gw`, which answers with `response` (of which only `id`
is used) or rejects. -/
def postPreference (env : Env) (gw : PreferenceConfiguration → Except Err MPPreference)
    (now : Nat) (tickets : List Ticket) (quantities : List (Nat × Nat)) :
    Except Err MPPreference :=
  gw (preferenceConfiguration env now tickets quantities)

/-- `bindTicketsToPurchase`: `update Tickets set purchaseId, status="booked"
where id in (tickets ids)`.  The update is unconditional: it does not check
the rows' current status. -/
def bindTicketsToPurchase (tickets : List Ticket) (purchase : Purchase)
    (store : Store) : Store :=
  { store with
    tickets := store.tickets.map (fun t =>
      if (tickets.map (fun u => u.id)).contains t.id then
        { t with purchaseId := some purchase.id, status := TicketStatus.booked }
      else t) }

/-- `add`: aggregate the requested tickets, create the preference, insert the
purchase row (status `"unpaid"`, `amountBilled` = aggregated total,
`externalId` = gateway id, `dateCreated` = now), then mark the tickets as
booked.  `newId` stands for the id generated by storage on insert.  A
rejection of the gateway call propagates before any row is written. -/
def add (env : Env) (gw : PreferenceConfiguration → Except Err MPPreference)
    (now : Nat) (newId : String) (req : List String) (store : Store) :
    Except Err Purchase × Store :=
  let r := getTickets req store
  match postPreference env gw now r.tickets r.quantitiesByType with
  | Except.error e => (Except.error e, store)
  | Except.ok preference =>
    let purchase : Purchase :=
      { id := newId
        dateCreated := dateToJSON now
        status := PurchaseStatus.unpaid
        amountBilled := r.totalPrice
        externalId := preference.id }
    let store1 : Store := { store with purchases := store.purchases ++ [purchase] }
    (Except.ok purchase, bindTicketsToPurchase r.tickets purchase store1)

/-- `removeById`: `delete from Purchases where id = id`. -/
def removeById (id : String) (store : Store) : Store :=
  { store with purchases := store.purchases.filter (fun p => p.id ≠ id) }

/-- `asResource`: wrap a row as a resource with fixed type `"purchase"`,
the row's remaining fields as attributes, and empty relationships. -/
def asResource (p : Purchase) : PurchaseResource :=
  { id := p.id
    type := "purchase"
    attributes :=
      { dateCreated := p.dateCreated
        status := p.status
        amountBilled := p.amountBilled
        externalId := p.externalId } }

/-- `getById`: `select … where {id} first`, then `asResource`.  When no row
matches, `first()` yields `undefined` and `asResource` evaluates
`purchaseObject.id` on it, which raises a JavaScript `TypeError`; that crash
is modelled as `Except.error Err.TypeError`. -/
def getById (id : String) (store : Store) : Except Err PurchaseResource :=
  match store.purchases.find? (fun p => p.id = id) with
  | none => Except.error Err.TypeError
  | some row => Except.ok (asResource row)

/-- `markAsPaid`: `update Purchases set status="paid" where id = id`.  The
update returns without error whether or not any row matched. -/
def markAsPaid (id : String) (store : Store) : Store :=
  { store with purchases := store.purchases.map (fun p =>
      if p.id = id then { p with status := PurchaseStatus.paid } else p) }

/-- The `delete` override: `throw JsonApiErrors.AccessDenied()` before any
storage access, leaving the store untouched. -/
def delete (store : Store) : Except Err Unit × Store :=
  (Except.error Err.AccessDenied, store)

/-- The public operations of the processor, for stating properties over every
code path of the core.  `addOp` carries the gateway client and the id the
storage layer generates for the insert. -/
inductive Op where
  | addOp (env : Env) (gw : PreferenceConfiguration → Except Err MPPreference)
      (now : Nat) (newId : String) (req : List String)
  | removeByIdOp (id : String)
  | getByIdOp (id : String)
  | markAsPaidOp (id : String)
  | deleteOp

/-- State effect of each operation.  `getByIdOp` is a read and `deleteOp`
throws before touching storage, so both leave the store unchanged. -/
def applyOp : Op → Store → Store
  | Op.addOp env gw now newId req, s => (add env gw now newId req s).snd
  | Op.removeByIdOp id, s => removeById id s
  | Op.getByIdOp _, s => s
  | Op.markAsPaidOp id, s => markAsPaid id s
  | Op.deleteOp, s => (delete s).snd

/-- Storage generates a fresh id on insert: an `addOp` never reuses the id of
an existing purchase row.  Every other operation is unconstrained. -/
def freshFor : Op → Store → Prop
  | Op.addOp _ _ _ newId _, s => ∀ p ∈ s.purchases, p.id ≠ newId
  | _, _ => True

/-- A fixed environment used by the concrete examples below. -/
def env0 : Env :=
  { WEBCONF_CHECKOUT_URL := "https://checkout.webconf.tech"
    MP_BACK_URL_SUCCESS := "success"
    MP_BACK_URL_PENDING := "pending"
    MP_BACK_URL_FAILURE := "failure"
    USE_FAKE_PAYMENTS := false
    MP_TICKET_PICTURE_URL := "https://webconf.tech/ticket.png"
    MP_EXCLUDED_PAYMENT_TYPES := "" }

/-- C1: the claim states that `add` fails with `NotFound` when a requested id
does not resolve and with `Conflict` when a resolved item is already booked,
creating no order and mutating no item in either case.  The code performs
neither check: requesting the already-booked ticket `"tkt-1"` succeeds,
inserts an order, and unconditionally re-books the ticket onto the new
order; and requesting only the nonexistent id `"ghost"` succeeds with an
order whose `amountBilled` is 0. -/
theorem C1_add_skips_conflict_and_notfound_checks :
    (add env0 (fun _ => Except.ok { id := "pref-1" }) 1000 "order-1" ["tkt-1"]
      { purchases := []
        tickets := [{ id := "tkt-1", price := 100, ticketTypeId := 1,
                      status := TicketStatus.booked, purchaseId := some "order-0" }] }) =
      (Except.ok { id := "order-1", dateCreated := dateToJSON 1000,
                   status := PurchaseStatus.unpaid, amountBilled := 100,
                   externalId := "pref-1" },
       { purchases := [{ id := "order-1", dateCreated := dateToJSON 1000,
                         status := PurchaseStatus.unpaid, amountBilled := 100,
                         externalId := "pref-1" }]
         tickets := [{ id := "tkt-1", price := 100, ticketTypeId := 1,
                       status := TicketStatus.booked, purchaseId := some "order-1" }] })
    ∧ (add env0 (fun _ => Except.ok { id := "pref-2" }) 1000 "order-2" ["ghost"]
        { purchases := [], tickets := [] }).fst =
      Except.ok { id := "order-2", dateCreated := dateToJSON 1000,
                  status := PurchaseStatus.unpaid, amountBilled := 0,
                  externalId := "pref-2" } := by
  exact ⟨rfl, rfl⟩

/-- C3: the claim states that the quantity-by-category map counts the
selected items of each category and that its values sum to the number of
selected items.  Because the reducer's object literal does not spread the
accumulator, selecting one category-1 and one category-2 ticket yields the
single-entry map `{2: 1}`: category 1 is absent and the values sum to 1,
not 2. -/
theorem C3_quantities_drop_earlier_categories :
    (getTickets ["a", "b"]
        { purchases := []
          tickets := [{ id := "a", price := 100, ticketTypeId := 1,
                        status := TicketStatus.available, purchaseId := none },
                      { id := "b", price := 150, ticketTypeId := 2,
                        status := TicketStatus.available, purchaseId := none }] }).quantitiesByType
        = [(2, 1)]
    ∧ ((getTickets ["a", "b"]
        { purchases := []
          tickets := [{ id := "a", price := 100, ticketTypeId := 1,
                        status := TicketStatus.available, purchaseId := none },
                      { id := "b", price := 150, ticketTypeId := 2,
                        status := TicketStatus.available, purchaseId := none }] }).quantitiesByType.map
        (fun e => e.snd)).sum = 1
    ∧ alistLookup (getTickets ["a", "b"]
        { purchases := []
          tickets := [{ id := "a", price := 100, ticketTypeId := 1,
                        status := TicketStatus.available, purchaseId := none },
                      { id := "b", price := 150, ticketTypeId := 2,
                        status := TicketStatus.available, purchaseId := none }] }).quantitiesByType 1
        = none
    ∧ (1 : Nat) ≠ 2 := by
  refine ⟨rfl, rfl, rfl, ?_⟩
  decide

/-- C6 counterexample: the claim asserts that no code path of this core
deletes an existing order row, yet `removeById` issues a real delete:
invoked on a store holding the order `"order-1"`, the row is gone. -/
theorem C6_counterexample_removeById_deletes :
    (removeById "order-1"
      { purchases := [{ id := "order-1", dateCreated := "1970-01-01T00:00:00.000Z",
                        status := PurchaseStatus.paid, amountBilled := 100,
                        externalId := "x" }]
        tickets := [] }).purchases = [] := by
  decide

/-- C6 amended: the `delete` operation always fails with `AccessDenied`,
for every store and hence every order state, and leaves the store
unchanged; the separate `removeById` helper, however, does delete the row
with the given id when invoked directly. -/
theorem C6_delete_always_access_denied (store : Store) :
    (delete store).fst = Except.error Err.AccessDenied
    ∧ applyOp Op.deleteOp store = store :=
  ⟨rfl, rfl⟩

/-- C7: if the gateway call made by `add` fails, the whole creation aborts
cleanly: the error propagates and the returned store is exactly the input
store, so no order row exists for the request and no ticket was mutated. -/
theorem C7_gateway_failure_clean_abort (env : Env)
    (gw : PreferenceConfiguration → Except Err MPPreference) (now : Nat)
    (newId : String) (req : List String) (store : Store) (e : Err)
    (hgw : gw (preferenceConfiguration env now (getTickets req store).tickets
                (getTickets req store).quantitiesByType) = Except.error e) :
    add env gw now newId req store = (Except.error e, store) := by
  simp [add, postPreference, hgw]

/-- C7 witness: a gateway client that rejects every request makes `add`
return the error and the untouched store. -/
theorem C7_witness :
    add env0 (fun _ => Except.error Err.GatewayError) 1000 "order-1" ["tkt-1"]
      { purchases := []
        tickets := [{ id := "tkt-1", price := 100, ticketTypeId := 1,
                      status := TicketStatus.available, purchaseId := none }] }
      = (Except.error Err.GatewayError,
         { purchases := []
           tickets := [{ id := "tkt-1", price := 100, ticketTypeId := 1,
                         status := TicketStatus.available, purchaseId := none }] }) :=
  C7_gateway_failure_clean_abort env0 (fun _ => Except.error Err.GatewayError)
    1000 "order-1" ["tkt-1"] _ Err.GatewayError rfl

/-- C8: the claim states that the expiration window runs from `t` to exactly
`t + 24` hours.  The code computes `TOMORROW = now + 60 * 60 * 60 * 24 *
1000`, which is `now + 5184000000` milliseconds, i.e. 60 days, not the
86400000 milliseconds of 24 hours (an extra factor of 60).  The
serialization itself does match the claim: 23 characters of the ISO string
(three fractional-second digits) followed by the fixed suffix `-03:00`. -/
theorem C8_expiration_window_is_60_days :
    (∀ now : Nat, tomorrowMs now = now + 5184000000)
    ∧ (5184000000 : Nat) = 60 * (24 * 60 * 60 * 1000)
    ∧ tomorrowMs 0 ≠ 24 * 60 * 60 * 1000
    ∧ expirationSerial 0 = "1970-01-01T00:00:00.000-03:00"
    ∧ expirationSerial (tomorrowMs 0) = "1970-03-02T00:00:00.000-03:00" := by
  refine ⟨fun now => rfl, by norm_num, by decide, rfl, rfl⟩

/-- C10: `markAsPaid` on an id that matches no purchase row is a silent
no-op: it completes (the conditional update is total, never an error) and
returns the store unchanged. -/
theorem C10_markAsPaid_unknown_id_noop (id : String) (store : Store)
    (h : ∀ p ∈ store.purchases, p.id ≠ id) : markAsPaid id store = store := by
  cases store with
  | mk purchases tickets =>
    simp only [markAsPaid]
    congr 1
    have h2 : ∀ p ∈ purchases,
        (if p.id = id then { p with status := PurchaseStatus.paid } else p) = p := by
      intro p hp
      simp at h
      simp [h p hp]
    calc purchases.map (fun p => if p.id = id then { p with status := PurchaseStatus.paid } else p)
        = purchases.map (fun p => p) := List.map_congr_left h2
      _ = purchases := List.map_id' purchases

/-- C10 witness: marking the unknown id `"ghost"` leaves a one-order store
untouched. -/
theorem C10_witness :
    markAsPaid "ghost"
      { purchases := [{ id := "order-1", dateCreated := "d",
                        status := PurchaseStatus.unpaid, amountBilled := 100,
                        externalId := "x" }]
        tickets := [] }
      = { purchases := [{ id := "order-1", dateCreated := "d",
                          status := PurchaseStatus.unpaid, amountBilled := 100,
                          externalId := "x" }]
          tickets := [] } :=
  C10_markAsPaid_unknown_id_noop "ghost" _ (by decide)

/-- C2: for a request whose ids are non-empty, duplicate-free, and all
resolve to available items, the purchase created by `add` is billed the
exact arithmetic sum of the selected rows' prices and starts `unpaid`. -/
theorem C2_amountBilled_exact_sum (env : Env)
    (gw : PreferenceConfiguration → Except Err MPPreference) (now : Nat)
    (newId : String) (req : List String) (store : Store) (preference : MPPreference)
    (hne : req ≠ []) (hnd : req.Nodup)
    (havail : ∀ i ∈ req, ∃ t ∈ store.tickets, t.id = i ∧ t.status = TicketStatus.available)
    (hgw : gw (preferenceConfiguration env now (getTickets req store).tickets
                (getTickets req store).quantitiesByType) = Except.ok preference) :
    ∀ p, (add env gw now newId req store).fst = Except.ok p →
      p.amountBilled
          = ((store.tickets.filter (fun t => req.contains t.id)).map (fun t => t.price)).sum
      ∧ p.status = PurchaseStatus.unpaid := by
  intro p hp
  simp [add, postPreference, hgw] at hp
  subst hp
  refine ⟨?_, rfl⟩
  simp [getTickets, List.sum_eq_foldl]

/-- C2 witness: one available 100-priced ticket yields an unpaid order billed
exactly 100. -/
theorem C2_witness :
    ({ id := "order-1", dateCreated := dateToJSON 1000, status := PurchaseStatus.unpaid,
       amountBilled := 100, externalId := "pref-1" } : Purchase).amountBilled
      = ((({ purchases := []
             tickets := [{ id := "tkt-1", price := 100, ticketTypeId := 1,
                           status := TicketStatus.available,
                           purchaseId := none }] } : Store).tickets.filter
          (fun t => (["tkt-1"] : List String).contains t.id)).map (fun t => t.price)).sum
    ∧ ({ id := "order-1", dateCreated := dateToJSON 1000, status := PurchaseStatus.unpaid,
         amountBilled := 100, externalId := "pref-1" } : Purchase).status
        = PurchaseStatus.unpaid :=
  C2_amountBilled_exact_sum env0 (fun _ => Except.ok { id := "pref-1" }) 1000 "order-1"
    ["tkt-1"]
    { purchases := []
      tickets := [{ id := "tkt-1", price := 100, ticketTypeId := 1,
                    status := TicketStatus.available, purchaseId := none }] }
    { id := "pref-1" } (by decide) (by decide) (by decide) rfl
    { id := "order-1", dateCreated := dateToJSON 1000, status := PurchaseStatus.unpaid,
      amountBilled := 100, externalId := "pref-1" } rfl

/-- C9 counterexample: fetching an order id that does not exist makes the
code dereference `undefined` inside `asResource`, a raw `TypeError`, not the
`NotFound` failure the claim names. -/
theorem C9_counterexample_missing_order_typeerror :
    getById "order-1" { purchases := [], tickets := [] } = Except.error Err.TypeError
    ∧ Err.TypeError ≠ Err.NotFound := by
  exact ⟨rfl, by decide⟩

/-- C9 amended: `getOrder` is a read-only fetch (the store is unchanged)
that returns the stored order, wrapped by `asResource`, when a row with the
requested id exists; when no row exists it fails, but with a runtime
`TypeError` raised by reading a property of `undefined`, not with
`NotFound`. -/
theorem C9_getById_fetch_semantics (id : String) (store : Store) :
    (store.purchases.find? (fun p => p.id = id) = none →
      getById id store = Except.error Err.TypeError)
    ∧ (∀ p, store.purchases.find? (fun q => q.id = id) = some p →
        getById id store = Except.ok (asResource p))
    ∧ applyOp (Op.getByIdOp id) store = store := by
  refine ⟨?_, ?_, rfl⟩
  · intro h
    simp [getById, h]
  · intro p h
    simp [getById, h]

/-- C9 witness: fetching an existing order returns it as a resource. -/
theorem C9_witness :
    getById "order-1"
      { purchases := [{ id := "order-1", dateCreated := "d",
                        status := PurchaseStatus.unpaid, amountBilled := 100,
                        externalId := "x" }]
        tickets := [] }
      = Except.ok (asResource { id := "order-1", dateCreated := "d",
                                status := PurchaseStatus.unpaid, amountBilled := 100,
                                externalId := "x" }) :=
  (C9_getById_fetch_semantics "order-1" _).2.1 _ rfl

/-- C4 counterexample: two tickets of the same category give two identical
line items, not the single line item per distinct category the claim
requires. -/
theorem C4_counterexample_line_item_per_ticket :
    ((([{ id := "a", price := 100, ticketTypeId := 1,
          status := TicketStatus.available, purchaseId := none },
        { id := "b", price := 100, ticketTypeId := 1,
          status := TicketStatus.available, purchaseId := none }] :
        List Ticket).map (fun t => t.ticketTypeId)).eraseDups).length = 1
    ∧ (preferenceConfiguration env0 0
        [{ id := "a", price := 100, ticketTypeId := 1,
           status := TicketStatus.available, purchaseId := none },
         { id := "b", price := 100, ticketTypeId := 1,
           status := TicketStatus.available, purchaseId := none }]
        (quantitiesByType [1, 1])).items.length = 2
    ∧ (2 : Nat) ≠ 1 := by
  refine ⟨rfl, rfl, by decide⟩

/-- Placeholder ticket for positional reads. -/
def dummyTicket : Ticket :=
  { id := "", price := 0, ticketTypeId := 0, status := TicketStatus.available,
    purchaseId := none }

/-- Placeholder line item for positional reads. -/
def dummyLineItem : LineItem :=
  { id := "", title := "", quantity := none, currency_id := "", unit_price := 0,
    picture_url := "", category_id := "" }

/-- C4 amended: the preference contains one line item per selected ticket
(so *n* tickets of one category give *n* identical line items); the *i*-th
line item's quantity is the value the computed quantities object holds for
the *i*-th ticket's category (possibly absent), its unit description is
selected by that quantity — not by the category — through the mapping
1 → "Entrada", 2 → "Par de Entradas", 3 → "Trío de Entradas" (anything else
rendering as "undefined"), and its unit price is the ticket's own price, or
the fixed nominal price 2 when the sandbox flag is set. -/
theorem C4_line_items_follow_tickets (env : Env) (now : Nat)
    (quantities : List (Nat × Nat)) (tickets : List Ticket) :
    (preferenceConfiguration env now tickets quantities).items.length = tickets.length
    ∧ ∀ i, i < tickets.length →
        ((preferenceConfiguration env now tickets quantities).items.getD i dummyLineItem).quantity
            = alistLookup quantities (tickets.getD i dummyTicket).ticketTypeId
        ∧ ((preferenceConfiguration env now tickets quantities).items.getD i dummyLineItem).title
            = strText ((alistLookup quantities (tickets.getD i dummyTicket).ticketTypeId).bind titles)
                ++ " para Córdoba WebConf 2019"
        ∧ ((preferenceConfiguration env now tickets quantities).items.getD i dummyLineItem).unit_price
            = (if env.USE_FAKE_PAYMENTS then 2 else (tickets.getD i dummyTicket).price) := by
  refine ⟨by simp [preferenceConfiguration], ?_⟩
  intro i hi
  have hlen : i < ((preferenceConfiguration env now tickets quantities).items).length := by
    simp [preferenceConfiguration, hi]
  rw [List.getD_eq_getElem _ _ hlen, List.getD_eq_getElem _ _ hi]
  simp [preferenceConfiguration, lineItemOf]

/-- C4 witness: with the sandbox flag set, the single line item of a
one-ticket selection carries the nominal unit price 2. -/
theorem C4_witness :
    ((preferenceConfiguration { env0 with USE_FAKE_PAYMENTS := true } 0
        [{ id := "a", price := 100, ticketTypeId := 1,
           status := TicketStatus.available, purchaseId := none }]
        [(1, 1)]).items.getD 0 dummyLineItem).unit_price = 2 := by
  have h := (C4_line_items_follow_tickets { env0 with USE_FAKE_PAYMENTS := true } 0
    [(1, 1)]
    [{ id := "a", price := 100, ticketTypeId := 1,
       status := TicketStatus.available, purchaseId := none }]).2 0 (by decide)
  simpa using h.2.2

/-- Rows of a purchases table with duplicate-free ids are determined by
their id. -/
theorem purchase_eq_of_id_eq {l : List Purchase}
    (hwf : (l.map (fun p => p.id)).Nodup) {p q : Purchase}
    (hp : p ∈ l) (hq : q ∈ l) (h : q.id = p.id) : q = p :=
  List.inj_on_of_nodup_map hwf hq hp h

/-- C5: `markAsPaid` is idempotent as a state transformer (and, being a
total function, re-invoking it is never an error); after `markAsPaid id`
every row with that id is `paid`; and no operation of the core — `add`,
`removeById`, `getById`, `markAsPaid`, `delete` — ever moves an existing
order's status away from `paid`, assuming the table's ids are
duplicate-free and storage hands `add` a fresh id. -/
theorem C5_markAsPaid_idempotent_monotonic (id : String) (store : Store) (op : Op)
    (hwf : (store.purchases.map (fun p => p.id)).Nodup)
    (hfresh : freshFor op store) :
    markAsPaid id (markAsPaid id store) = markAsPaid id store
    ∧ (∀ p ∈ (markAsPaid id store).purchases, p.id = id → p.status = PurchaseStatus.paid)
    ∧ (∀ p ∈ store.purchases, p.status = PurchaseStatus.paid →
        ∀ q ∈ (applyOp op store).purchases, q.id = p.id → q.status = PurchaseStatus.paid) := by
  refine ⟨?_, ?_, ?_⟩
  · cases store with
    | mk purchases tickets =>
      simp only [markAsPaid]
      congr 1
      rw [List.map_map]
      apply List.map_congr_left
      intro p _
      by_cases h : p.id = id <;> simp [Function.comp, h]
  · intro p hp hid
    simp only [markAsPaid, List.mem_map] at hp
    obtain ⟨q, hq, rfl⟩ := hp
    by_cases h : q.id = id
    · simp [h]
    · simp [h] at hid
  · intro p hp hpaid q hq hid
    have base : ∀ w ∈ store.purchases, w.id = p.id → w.status = PurchaseStatus.paid := by
      intro w hw hwid
      rw [purchase_eq_of_id_eq hwf hp hw hwid]
      exact hpaid
    cases op with
    | addOp env gw now newId req =>
      simp only [applyOp, add] at hq
      split at hq
      · exact base q (by simpa using hq) hid
      · simp only [bindTicketsToPurchase, List.mem_append] at hq
        rcases hq with hq | hq
        · exact base q hq hid
        · simp only [freshFor] at hfresh
          simp at hq
          subst hq
          simp at hid
          exact absurd hid.symm (hfresh p hp)
    | removeByIdOp rid =>
      simp only [applyOp, removeById] at hq
      exact base q (List.mem_of_mem_filter hq) hid
    | getByIdOp gid =>
      simp only [applyOp] at hq
      exact base q hq hid
    | markAsPaidOp mid =>
      simp only [applyOp, markAsPaid, List.mem_map] at hq
      obtain ⟨w, hw, rfl⟩ := hq
      by_cases h : w.id = mid
      · simp [h]
      · simp [h] at hid ⊢
        exact base w hw hid
    | deleteOp =>
      simp only [applyOp, delete] at hq
      exact base q hq hid

/-- C5 witness: marking the same one-order store paid twice equals marking
it once. -/
theorem C5_witness :
    markAsPaid "order-1" (markAsPaid "order-1"
      { purchases := [{ id := "order-1", dateCreated := "d",
                        status := PurchaseStatus.unpaid, amountBilled := 100,
                        externalId := "x" }]
        tickets := [] })
    = markAsPaid "order-1"
      { purchases := [{ id := "order-1", dateCreated := "d",
                        status := PurchaseStatus.unpaid, amountBilled := 100,
                        externalId := "x" }]
        tickets := [] } :=
  (C5_markAsPaid_idempotent_monotonic "order-1"
    { purchases := [{ id := "order-1", dateCreated := "d",
                      status := PurchaseStatus.unpaid, amountBilled := 100,
                      externalId := "x" }]
      tickets := [] }
    Op.deleteOp (by decide) True.intro).1

end Checkout
